import Mathlib

/-!
Shallow embedding of the client-side happy-eyeballs and key-handoff logic of
the mvfst QUIC client.

The happy-eyeballs functions are translated from
`quic/happyeyeballs/QuicHappyEyeballsFunctions.cpp`.  The connection state is
the slice of `QuicConnectionStateBase` those functions touch: the peer
addresses, the `HappyEyeballsState` sub-record, the delay timer and the two
UDP socket handles.  Sockets are modelled by their observable lifecycle flags
(bound, reading, closed); the delay timer by an `Option Nat` holding the
armed delay.  `happyEyeballsSetUpSocket` can throw at several points — at
`bind`, or after a successful bind in `dontFragment`, `connect` (with
`connectUDP` set) or `setErrMessageCallback` — and which of these happens is
decided by the configuration and the operating system, so it is an explicit
`SetUpSocketOutcome` input; a throw after a successful bind leaves the
socket object bound but not reading, exactly as the partially mutated C++
object referenced by the caller's `unique_ptr`.
-/

namespace Quic

/-- Address family of a socket address (`sa_family_t`).  `afUnspec` is the
family of a default-constructed, uninitialized `folly::SocketAddress`. -/
inductive SaFamily where
  | afInet
  | afInet6
  | afUnspec
  deriving DecidableEq, Repr

/-- Model of `folly::SocketAddress`: a family plus an abstract host/port
identity used to tell concrete addresses apart. -/
structure SocketAddress where
  family : SaFamily
  host : Nat
  port : Nat
  deriving DecidableEq, Repr

/-- `folly::SocketAddress::isInitialized`: true once an address was assigned,
i.e. the family is no longer `AF_UNSPEC`. -/
def SocketAddress.isInitialized (a : SocketAddress) : Bool :=
  a.family != SaFamily.afUnspec

/-- A default-constructed (uninitialized) `folly::SocketAddress`. -/
def SocketAddress.uninitialized : SocketAddress :=
  { family := SaFamily.afUnspec, host := 0, port := 0 }

/-- Model of `folly::AsyncUDPSocket` by its observable lifecycle flags:
whether `bind` completed, whether reads are resumed, whether `close` ran.
`id` is an abstract identity distinguishing socket handles. -/
structure UDPSocket where
  id : Nat
  bound : Bool
  reading : Bool
  closed : Bool
  deriving DecidableEq, Repr

/-- A socket handle counts as open when its bind completed and it has not
been closed. -/
def UDPSocket.isOpen (s : UDPSocket) : Bool :=
  s.bound && !s.closed

/-- The `HappyEyeballsState` sub-record of `QuicConnectionStateBase`
(declared in `quic/state/StateData.h`).  `connAttemptDelayTimeoutSet` models
the `connAttemptDelayTimeout` callback pointer being stored. -/
structure HappyEyeballsState where
  connAttemptDelayTimeoutSet : Bool
  v6PeerAddress : SocketAddress
  v4PeerAddress : SocketAddress
  secondPeerAddress : SocketAddress
  secondSocket : Option UDPSocket
  finished : Bool
  shouldWriteToFirstSocket : Bool
  shouldWriteToSecondSocket : Bool
  deriving DecidableEq, Repr

/-- Modelled from the spec: the field initializers of `HappyEyeballsState`
live in `quic/state/StateData.h`, which is not part of the sources here.
Per the spec the race starts not finished, the primary is writable from the
start and the secondary becomes writable only after the delay expires. -/
def initialHappyEyeballsState : HappyEyeballsState :=
  { connAttemptDelayTimeoutSet := false
    v6PeerAddress := SocketAddress.uninitialized
    v4PeerAddress := SocketAddress.uninitialized
    secondPeerAddress := SocketAddress.uninitialized
    secondSocket := none
    finished := false
    shouldWriteToFirstSocket := true
    shouldWriteToSecondSocket := false }

/-- The slice of `QuicConnectionStateBase` read or written by the
happy-eyeballs functions. -/
structure QuicConnectionStateBase where
  peerAddress : SocketAddress
  originalPeerAddress : SocketAddress
  happyEyeballsState : HappyEyeballsState
  deriving DecidableEq, Repr

/-- `happyEyeballsAddPeerAddress` (QuicHappyEyeballsFunctions.cpp:28): an
`AF_INET` address is stored in the v4 slot, any other address in the v6
slot.  The source guards each slot only with a debug-build
`DCHECK(!isInitialized())`; the assignment itself is unconditional, so a
second registration of the same family overwrites the slot. -/
def happyEyeballsAddPeerAddress (connection : QuicConnectionStateBase)
    (peerAddress : SocketAddress) : QuicConnectionStateBase :=
  if peerAddress.family = SaFamily.afInet then
    { connection with happyEyeballsState :=
        { connection.happyEyeballsState with v4PeerAddress := peerAddress } }
  else
    { connection with happyEyeballsState :=
        { connection.happyEyeballsState with v6PeerAddress := peerAddress } }

/-- `happyEyeballsAddSocket` (QuicHappyEyeballsFunctions.cpp:54): stores the
extra socket as the second socket. -/
def happyEyeballsAddSocket (connection : QuicConnectionStateBase)
    (socket : UDPSocket) : QuicConnectionStateBase :=
  { connection with happyEyeballsState :=
      { connection.happyEyeballsState with secondSocket := some socket } }

/-- How a run of `happyEyeballsSetUpSocket` can end: all steps succeed,
`bind` itself throws, or a step after a successful bind throws
(`dontFragment` on the default PMTUD path, `connect` when `connectUDP` is
set, `setErrMessageCallback`). -/
inductive SetUpSocketOutcome where
  | success
  | bindThrows
  | postBindThrows
  deriving DecidableEq, Repr

/-- `happyEyeballsSetUpSocket` (QuicHappyEyeballsFunctions.cpp:119):
`setReuseAddr(false)`, bind to the wildcard address of the peer's family,
PMTUD setup or `dontFragment`, optional `connect`, optional error-message
callback, and `resumeRead`.  Several of these can throw; the exception
propagates while the socket object keeps the mutations already applied, so
the error value carries the partially set-up socket: unchanged when `bind`
threw, bound but not reading when a later step threw.  On success the
socket ends up bound and reading. -/
def happyEyeballsSetUpSocket (socket : UDPSocket)
    (outcome : SetUpSocketOutcome) : Except UDPSocket UDPSocket :=
  match outcome with
  | SetUpSocketOutcome.bindThrows => Except.error socket
  | SetUpSocketOutcome.postBindThrows =>
    Except.error { socket with bound := true }
  | SetUpSocketOutcome.success =>
    Except.ok { socket with bound := true, reading := true }

/-- Result of `startHappyEyeballs`: the new connection state, the final state
of the connection-attempt delay timer (`some d` iff armed with delay `d`),
and the ghost observation of the delay passed to `scheduleTimeout` when it
was called. -/
structure StartHappyEyeballsResult where
  connection : QuicConnectionStateBase
  timerArmed : Option Nat
  scheduledDelay : Option Nat
  deriving DecidableEq, Repr

/-- `startHappyEyeballs` (QuicHappyEyeballsFunctions.cpp:60).  When both
peer addresses are initialized: pick the primary by `cachedFamily`
(`AF_INET` means v4 primary, anything else v6 primary), store the callback
pointer, arm the delay timer, and set up the second socket; if that setup
throws — at `bind` or at any later step — the catch cancels the timer and
marks the race finished, with the second socket handle still holding the
partially set-up socket.  When exactly one address is initialized: assign
it as peer address and mark finished.  The `secondSocket = none` arm of the
two-family case is the branch the source excludes with
`DCHECK(secondSocket)`. -/
def startHappyEyeballs (connection : QuicConnectionStateBase)
    (cachedFamily : SaFamily) (connAttempDelay : Nat) (timer : Option Nat)
    (outcome : SetUpSocketOutcome) : StartHappyEyeballsResult :=
  if connection.happyEyeballsState.v6PeerAddress.isInitialized &&
      connection.happyEyeballsState.v4PeerAddress.isInitialized then
    let connection1 :=
      if cachedFamily = SaFamily.afInet then
        { connection with
          originalPeerAddress := connection.happyEyeballsState.v4PeerAddress
          peerAddress := connection.happyEyeballsState.v4PeerAddress
          happyEyeballsState :=
            { connection.happyEyeballsState with
              secondPeerAddress := connection.happyEyeballsState.v6PeerAddress } }
      else
        { connection with
          originalPeerAddress := connection.happyEyeballsState.v6PeerAddress
          peerAddress := connection.happyEyeballsState.v6PeerAddress
          happyEyeballsState :=
            { connection.happyEyeballsState with
              secondPeerAddress := connection.happyEyeballsState.v4PeerAddress } }
    let connection2 :=
      { connection1 with happyEyeballsState :=
          { connection1.happyEyeballsState with
            connAttemptDelayTimeoutSet := true } }
    match connection2.happyEyeballsState.secondSocket with
    | some sock =>
      match happyEyeballsSetUpSocket sock outcome with
      | Except.ok sock1 =>
        { connection :=
            { connection2 with happyEyeballsState :=
                { connection2.happyEyeballsState with
                  secondSocket := some sock1 } }
          timerArmed := some connAttempDelay
          scheduledDelay := some connAttempDelay }
      | Except.error sockErr =>
        { connection :=
            { connection2 with happyEyeballsState :=
                { connection2.happyEyeballsState with
                  secondSocket := some sockErr
                  finished := true } }
          timerArmed := none
          scheduledDelay := some connAttempDelay }
    | none =>
      { connection := connection2
        timerArmed := some connAttempDelay
        scheduledDelay := some connAttempDelay }
  else if connection.happyEyeballsState.v6PeerAddress.isInitialized then
    { connection :=
        { connection with
          originalPeerAddress := connection.happyEyeballsState.v6PeerAddress
          peerAddress := connection.happyEyeballsState.v6PeerAddress
          happyEyeballsState :=
            { connection.happyEyeballsState with finished := true } }
      timerArmed := timer
      scheduledDelay := none }
  else if connection.happyEyeballsState.v4PeerAddress.isInitialized then
    { connection :=
        { connection with
          originalPeerAddress := connection.happyEyeballsState.v4PeerAddress
          peerAddress := connection.happyEyeballsState.v4PeerAddress
          happyEyeballsState :=
            { connection.happyEyeballsState with finished := true } }
      timerArmed := timer
      scheduledDelay := none }
  else
    { connection := connection, timerArmed := timer, scheduledDelay := none }

/-- `happyEyeballsStartSecondSocket` (QuicHappyEyeballsFunctions.cpp:168).
The source opens with `CHECK(!finished)`, which aborts the process when the
race is already finished; `none` models the aborted run.  Otherwise the
second socket is made writable. -/
def happyEyeballsStartSecondSocket (happyEyeballsState : HappyEyeballsState) :
    Option HappyEyeballsState :=
  if happyEyeballsState.finished then
    none
  else
    some { happyEyeballsState with shouldWriteToSecondSocket := true }

/-- Result of `happyEyeballsOnDataReceived`: the new connection state, the
timer state, the transport's main socket reference (swapped when the
secondary won), and the ghost observation of the losing socket right after
`pauseRead()` and `close()`, just before the `unique_ptr` is reset. -/
structure OnDataReceivedResult where
  connection : QuicConnectionStateBase
  timerArmed : Option Nat
  socket : Option UDPSocket
  closedSocket : Option UDPSocket
  deriving DecidableEq, Repr

/-- `happyEyeballsOnDataReceived` (QuicHappyEyeballsFunctions.cpp:175).
Returns immediately when already finished.  Otherwise: cancel the delay
timer, mark finished, make the first socket writable and the second not;
when the datagram's family differs from the current peer address family the
second socket won, so the handles are swapped and both peer addresses take
the receiving address; finally the losing second socket has its reads
paused, is closed, and its handle is reset. -/
def happyEyeballsOnDataReceived (connection : QuicConnectionStateBase)
    (timer : Option Nat) (socket : Option UDPSocket)
    (peerAddress : SocketAddress) : OnDataReceivedResult :=
  if connection.happyEyeballsState.finished then
    { connection := connection, timerArmed := timer, socket := socket
      closedSocket := none }
  else
    let connection1 :=
      { connection with happyEyeballsState :=
          { connection.happyEyeballsState with
            finished := true
            shouldWriteToFirstSocket := true
            shouldWriteToSecondSocket := false } }
    let pair :=
      if connection1.peerAddress.family = peerAddress.family then
        (connection1, socket)
      else
        ({ connection1 with
            originalPeerAddress := peerAddress
            peerAddress := peerAddress
            happyEyeballsState :=
              { connection1.happyEyeballsState with secondSocket := socket } },
          connection1.happyEyeballsState.secondSocket)
    let losing := pair.1.happyEyeballsState.secondSocket
    let closedLosing :=
      losing.map (fun s => { s with reading := false, closed := true })
    { connection :=
        { pair.1 with happyEyeballsState :=
            { pair.1.happyEyeballsState with secondSocket := none } }
      timerArmed := none
      socket := pair.2
      closedSocket := closedLosing }

/-- Number of open socket handles among the transport's main socket and the
happy-eyeballs second socket. -/
def openSocketCount (socket : Option UDPSocket)
    (happyEyeballsState : HappyEyeballsState) : Nat :=
  (match socket with
   | some s => if s.isOpen then 1 else 0
   | none => 0) +
  (match happyEyeballsState.secondSocket with
   | some s => if s.isOpen then 1 else 0
   | none => 0)

/-- Modelled from the spec: the bodies of the `ClientHandshake`
`get*Cipher` / `get*HeaderCipher` family are in `ClientHandshake.cpp`, which
is not among the sources; only their declarations in
`quic/client/handshake/ClientHandshake.h` are.  A key-scheduler slot holds
an optional key (keys are abstract `Nat` identities); `install` puts a key
into an empty slot and fails if the slot is already populated, and the
edge-triggered `take` moves the slot contents out, leaving the slot empty. -/
inductive KeySchedulerOp where
  | install (key : Nat)
  | take
  deriving DecidableEq, Repr

/-- Modelled from the spec: one step of a key-scheduler slot.  Returns the
new slot contents and, for a `take`, the value handed to the caller. -/
def keySlotStep (slot : Option Nat) :
    KeySchedulerOp → Option Nat × Option (Option Nat)
  | KeySchedulerOp.install k =>
    (if slot.isSome then slot else some k, none)
  | KeySchedulerOp.take => (none, some slot)

/-- The values returned by the `take` operations of an operation sequence
run against a key-scheduler slot. -/
def keySlotOutputs (slot : Option Nat) :
    List KeySchedulerOp → List (Option Nat)
  | [] => []
  | op :: ops =>
    match keySlotStep slot op with
    | (slot1, some out) => out :: keySlotOutputs slot1 ops
    | (slot1, none) => keySlotOutputs slot1 ops

/-- Number of `take` operations of the sequence that returned a key. -/
def takeHits (slot : Option Nat) (ops : List KeySchedulerOp) : Nat :=
  (keySlotOutputs slot ops).countP (fun o => o.isSome)

/-- Number of `install` operations in the sequence. -/
def installCount (ops : List KeySchedulerOp) : Nat :=
  ops.countP (fun op =>
    match op with
    | KeySchedulerOp.install _ => true
    | KeySchedulerOp.take => false)

/-- Modelled from the spec: the zero-rtt bookkeeping of `ClientHandshake`
(`ClientHandshake.cpp` is not among the sources).  `earlyDataAttempted` is
set when a zero-rtt cipher is computed; `zeroRttRejected` is set exactly
when the handshake reports success while early data was attempted, and
`getZeroRttRejected` moves it out, clearing the stored result. -/
structure ZeroRttState where
  earlyDataAttempted : Bool
  zeroRttRejected : Option Bool
  deriving DecidableEq, Repr

/-- A fresh `ClientHandshake`: zero-rtt not attempted, no result stored. -/
def initialZeroRttState : ZeroRttState :=
  { earlyDataAttempted := false, zeroRttRejected := none }

/-- Modelled from the spec: computing the zero-rtt cipher records that early
data was attempted. -/
def computeZeroRttCipher (s : ZeroRttState) : ZeroRttState :=
  { s with earlyDataAttempted := true }

/-- Modelled from the spec: on handshake success, when early data was
attempted the rejection result is recorded (`true` meaning rejected);
when zero-rtt was never attempted nothing is recorded. -/
def reportHandshakeSuccess (earlyDataAccepted : Bool) (s : ZeroRttState) :
    ZeroRttState :=
  if s.earlyDataAttempted then
    { s with zeroRttRejected := some (!earlyDataAccepted) }
  else
    s

/-- Modelled from the spec: `getZeroRttRejected` returns the stored result
and clears it (the source moves the `folly::Optional` out). -/
def getZeroRttRejected (s : ZeroRttState) : Option Bool × ZeroRttState :=
  (s.zeroRttRejected, { s with zeroRttRejected := none })

/-- Events touching the zero-rtt result over a connection's lifetime. -/
inductive ZeroRttOp where
  | attempt
  | success (accepted : Bool)
  | get
  deriving DecidableEq, Repr

/-- One lifetime event applied to the zero-rtt state; `get` produces an
output for the caller. -/
def zeroRttStep (s : ZeroRttState) :
    ZeroRttOp → ZeroRttState × Option (Option Bool)
  | ZeroRttOp.attempt => (computeZeroRttCipher s, none)
  | ZeroRttOp.success b => (reportHandshakeSuccess b s, none)
  | ZeroRttOp.get =>
    ((getZeroRttRejected s).2, some (getZeroRttRejected s).1)

/-- The values returned by the `get` events of a lifetime event sequence. -/
def zeroRttOutputs (s : ZeroRttState) :
    List ZeroRttOp → List (Option Bool)
  | [] => []
  | op :: ops =>
    match zeroRttStep s op with
    | (s1, some out) => out :: zeroRttOutputs s1 ops
    | (s1, none) => zeroRttOutputs s1 ops

/-- Number of handshake-success events in a lifetime event sequence. -/
def successCount (ops : List ZeroRttOp) : Nat :=
  ops.countP (fun op =>
    match op with
    | ZeroRttOp.success _ => true
    | _ => false)

/-- A concrete v4 peer address used in witnesses. -/
def addrV4 : SocketAddress :=
  { family := SaFamily.afInet, host := 10, port := 443 }

/-- A second, distinct concrete v4 peer address used in witnesses. -/
def addrV4b : SocketAddress :=
  { family := SaFamily.afInet, host := 11, port := 443 }

/-- A concrete v6 peer address used in witnesses. -/
def addrV6 : SocketAddress :=
  { family := SaFamily.afInet6, host := 20, port := 443 }

/-- A concrete bound-and-reading socket used in witnesses. -/
def sockA : UDPSocket :=
  { id := 0, bound := true, reading := true, closed := false }

/-- A second concrete bound-and-reading socket used in witnesses. -/
def sockB : UDPSocket :=
  { id := 1, bound := true, reading := true, closed := false }

/-- A concrete freshly added (not yet set up) socket used in witnesses. -/
def sockFresh : UDPSocket :=
  { id := 2, bound := false, reading := false, closed := false }

/-- A concrete mid-race connection: both families registered, v6 primary,
second socket present, race not finished. -/
def raceConnection : QuicConnectionStateBase :=
  { peerAddress := addrV6
    originalPeerAddress := addrV6
    happyEyeballsState :=
      { initialHappyEyeballsState with
        v4PeerAddress := addrV4
        v6PeerAddress := addrV6
        secondPeerAddress := addrV4
        secondSocket := some sockB } }

/-- A concrete connection whose happy-eyeballs race is already finished. -/
def finishedConnection : QuicConnectionStateBase :=
  { peerAddress := addrV6
    originalPeerAddress := addrV6
    happyEyeballsState := { initialHappyEyeballsState with finished := true } }

/-- A concrete happy-eyeballs state with the race already finished. -/
def finishedHappyEyeballsState : HappyEyeballsState :=
  { initialHappyEyeballsState with finished := true }

/-- A concrete connection with only the v6 family registered. -/
def v6OnlyConnection : QuicConnectionStateBase :=
  { peerAddress := SocketAddress.uninitialized
    originalPeerAddress := SocketAddress.uninitialized
    happyEyeballsState :=
      { initialHappyEyeballsState with v6PeerAddress := addrV6 } }

/-- A concrete connection with both families registered and a freshly added
(not yet set up) second socket. -/
def bothFamiliesConnection : QuicConnectionStateBase :=
  { peerAddress := SocketAddress.uninitialized
    originalPeerAddress := SocketAddress.uninitialized
    happyEyeballsState :=
      { initialHappyEyeballsState with
        v4PeerAddress := addrV4
        v6PeerAddress := addrV6
        secondSocket := some sockFresh } }

/-- A concrete connection with a v4 peer address already registered, used to
exercise a duplicate v4 registration. -/
def v4RegisteredConnection : QuicConnectionStateBase :=
  { peerAddress := SocketAddress.uninitialized
    originalPeerAddress := SocketAddress.uninitialized
    happyEyeballsState :=
      { initialHappyEyeballsState with v4PeerAddress := addrV4 } }

theorem openSocketCount_le_one_of_second_none (socket : Option UDPSocket)
    (happyEyeballsState : HappyEyeballsState)
    (h : happyEyeballsState.secondSocket = none) :
    openSocketCount socket happyEyeballsState ≤ 1 := by
  cases socket with
  | none => simp [openSocketCount, h]
  | some s => simp only [openSocketCount, h]; split <;> simp

theorem openSocketCount_le_one_of_second_not_open (socket : Option UDPSocket)
    (happyEyeballsState : HappyEyeballsState) (s : UDPSocket)
    (h : happyEyeballsState.secondSocket = some s) (hs : s.isOpen = false) :
    openSocketCount socket happyEyeballsState ≤ 1 := by
  cases socket with
  | none => simp [openSocketCount, h, hs]
  | some t => simp only [openSocketCount, h, hs]; split <;> simp

theorem onDataReceived_finished_id (connection : QuicConnectionStateBase)
    (timer : Option Nat) (socket : Option UDPSocket)
    (peerAddress : SocketAddress)
    (h : connection.happyEyeballsState.finished = true) :
    happyEyeballsOnDataReceived connection timer socket peerAddress =
      { connection := connection, timerArmed := timer, socket := socket
        closedSocket := none } := by
  simp [happyEyeballsOnDataReceived, h]

theorem onDataReceived_sets_finished (connection : QuicConnectionStateBase)
    (timer : Option Nat) (socket : Option UDPSocket)
    (peerAddress : SocketAddress)
    (h : connection.happyEyeballsState.finished = false) :
    (happyEyeballsOnDataReceived connection timer socket
        peerAddress).connection.happyEyeballsState.finished = true := by
  by_cases hfam : connection.peerAddress.family = peerAddress.family <;>
    simp [happyEyeballsOnDataReceived, h, hfam]

theorem onDataReceived_second_none (connection : QuicConnectionStateBase)
    (timer : Option Nat) (socket : Option UDPSocket)
    (peerAddress : SocketAddress)
    (h : connection.happyEyeballsState.finished = false) :
    (happyEyeballsOnDataReceived connection timer socket
        peerAddress).connection.happyEyeballsState.secondSocket = none := by
  by_cases hfam : connection.peerAddress.family = peerAddress.family <;>
    simp [happyEyeballsOnDataReceived, h, hfam]

theorem takeHits_le (ops : List KeySchedulerOp) : ∀ slot : Option Nat,
    takeHits slot ops ≤
      installCount ops + (if slot.isSome then 1 else 0) := by
  induction ops with
  | nil => intro slot; simp [takeHits, keySlotOutputs, installCount]
  | cons op ops ih =>
    intro slot
    cases op with
    | install k =>
      have h := ih (if slot.isSome then slot else some k)
      have hb : (if (if slot.isSome then slot else some k).isSome then 1 else 0) ≤ 1 := by
        split <;> simp
      simp only [takeHits, keySlotOutputs, keySlotStep, installCount,
        List.countP_cons, Option.isSome_none, Bool.false_eq_true, if_false,
        if_true] at h ⊢
      omega
    | take =>
      have h := ih none
      simp only [takeHits, keySlotOutputs, keySlotStep, installCount,
        List.countP_cons, Option.isSome_none, Bool.false_eq_true, if_false,
        if_true] at h ⊢
      omega

theorem zeroRttOutputs_all_none (ops : List ZeroRttOp) : ∀ s : ZeroRttState,
    ZeroRttOp.attempt ∉ ops → s.earlyDataAttempted = false →
    s.zeroRttRejected = none →
    (zeroRttOutputs s ops).all (fun o => o.isNone) = true := by
  induction ops with
  | nil => intro s _ _ _; simp [zeroRttOutputs]
  | cons op ops ih =>
    intro s h1 h2 h3
    have hops : ZeroRttOp.attempt ∉ ops := fun hm => h1 (List.mem_cons_of_mem _ hm)
    cases op with
    | attempt => exact absurd (List.mem_cons_self _ _) h1
    | success b =>
      simp only [zeroRttOutputs, zeroRttStep, reportHandshakeSuccess, h2,
        Bool.false_eq_true, if_false]
      exact ih s hops h2 h3
    | get =>
      simp only [zeroRttOutputs, zeroRttStep, getZeroRttRejected, h3,
        List.all_cons, Option.isNone_none, Bool.true_and]
      exact ih _ hops h2 rfl

theorem zeroRttHits_le (ops : List ZeroRttOp) : ∀ s : ZeroRttState,
    (zeroRttOutputs s ops).countP (fun o => o.isSome) ≤
      successCount ops + (if s.zeroRttRejected.isSome then 1 else 0) := by
  induction ops with
  | nil => intro s; simp [zeroRttOutputs, successCount]
  | cons op ops ih =>
    intro s
    cases op with
    | attempt =>
      have h := ih (computeZeroRttCipher s)
      simp only [zeroRttOutputs, zeroRttStep, successCount, computeZeroRttCipher,
        List.countP_cons] at h ⊢
      omega
    | success b =>
      have h := ih (reportHandshakeSuccess b s)
      have hb : (if (reportHandshakeSuccess b s).zeroRttRejected.isSome then 1 else 0) ≤ 1 := by
        split <;> simp
      simp only [zeroRttOutputs, zeroRttStep, successCount,
        List.countP_cons, Option.isSome_none, Bool.false_eq_true, if_false,
        if_true] at h ⊢
      omega
    | get =>
      have h := ih { s with zeroRttRejected := none }
      simp only [zeroRttOutputs, zeroRttStep, getZeroRttRejected, successCount,
        List.countP_cons, Option.isSome_none] at h ⊢
      omega

/-- C1: on the first datagram observed while the race is not finished,
`happyEyeballsOnDataReceived` cancels the delay timer, marks the race
finished, makes the first socket writable and the second not, swaps the
socket handles and rewrites `peerAddress` and `originalPeerAddress` to the
receiving address exactly when the datagram's family differs from the
current peer address family, and in every case pauses reads on and closes
the losing second socket, resetting its handle. -/
theorem c1_onDataReceived_decides_race (connection : QuicConnectionStateBase)
    (timer : Option Nat) (s1 s2 : UDPSocket) (peerAddress : SocketAddress)
    (r : OnDataReceivedResult)
    (hr : happyEyeballsOnDataReceived connection timer (some s1) peerAddress = r)
    (hfin : connection.happyEyeballsState.finished = false)
    (hsecond : connection.happyEyeballsState.secondSocket = some s2) :
    r.timerArmed = none ∧
    r.connection.happyEyeballsState.finished = true ∧
    r.connection.happyEyeballsState.shouldWriteToFirstSocket = true ∧
    r.connection.happyEyeballsState.shouldWriteToSecondSocket = false ∧
    r.connection.happyEyeballsState.secondSocket = none ∧
    r.socket =
      (if connection.peerAddress.family = peerAddress.family then some s1
       else some s2) ∧
    r.connection.peerAddress =
      (if connection.peerAddress.family = peerAddress.family then
        connection.peerAddress
       else peerAddress) ∧
    r.connection.originalPeerAddress =
      (if connection.peerAddress.family = peerAddress.family then
        connection.originalPeerAddress
       else peerAddress) ∧
    r.closedSocket =
      (if connection.peerAddress.family = peerAddress.family then
        some { s2 with reading := false, closed := true }
       else some { s1 with reading := false, closed := true }) := by
  subst hr
  by_cases hfam : connection.peerAddress.family = peerAddress.family <;>
    simp [happyEyeballsOnDataReceived, hfin, hfam, hsecond]

/-- C1 witness: the race connection (v6 primary) receives its first datagram
from the v4 address, so the secondary won and the handles swap. -/
theorem c1_witness :
    (happyEyeballsOnDataReceived raceConnection (some 150) (some sockA)
        addrV4).timerArmed = none ∧
    (happyEyeballsOnDataReceived raceConnection (some 150) (some sockA)
        addrV4).connection.happyEyeballsState.finished = true ∧
    (happyEyeballsOnDataReceived raceConnection (some 150) (some sockA)
        addrV4).connection.happyEyeballsState.shouldWriteToFirstSocket = true ∧
    (happyEyeballsOnDataReceived raceConnection (some 150) (some sockA)
        addrV4).connection.happyEyeballsState.shouldWriteToSecondSocket = false ∧
    (happyEyeballsOnDataReceived raceConnection (some 150) (some sockA)
        addrV4).connection.happyEyeballsState.secondSocket = none ∧
    (happyEyeballsOnDataReceived raceConnection (some 150) (some sockA)
        addrV4).socket =
      (if raceConnection.peerAddress.family = addrV4.family then some sockA
       else some sockB) ∧
    (happyEyeballsOnDataReceived raceConnection (some 150) (some sockA)
        addrV4).connection.peerAddress =
      (if raceConnection.peerAddress.family = addrV4.family then
        raceConnection.peerAddress
       else addrV4) ∧
    (happyEyeballsOnDataReceived raceConnection (some 150) (some sockA)
        addrV4).connection.originalPeerAddress =
      (if raceConnection.peerAddress.family = addrV4.family then
        raceConnection.originalPeerAddress
       else addrV4) ∧
    (happyEyeballsOnDataReceived raceConnection (some 150) (some sockA)
        addrV4).closedSocket =
      (if raceConnection.peerAddress.family = addrV4.family then
        some { sockB with reading := false, closed := true }
       else some { sockA with reading := false, closed := true }) :=
  c1_onDataReceived_decides_race raceConnection (some 150) sockA sockB addrV4 _
    rfl (by decide) (by decide)

/-- C2: with both families registered, `startHappyEyeballs` selects the v4
address as primary exactly when the cached family is `AF_INET` (v6 primary
otherwise, including the unspecified default), stores the other address as
the second peer address, and schedules the connection-attempt delay timer
with the configured delay. -/
theorem c2_start_selects_primary_by_cached_family
    (connection : QuicConnectionStateBase) (cachedFamily : SaFamily)
    (connAttempDelay : Nat) (timer : Option Nat)
    (outcome : SetUpSocketOutcome) (r : StartHappyEyeballsResult)
    (hr : startHappyEyeballs connection cachedFamily connAttempDelay timer
        outcome = r)
    (h6 : connection.happyEyeballsState.v6PeerAddress.isInitialized = true)
    (h4 : connection.happyEyeballsState.v4PeerAddress.isInitialized = true) :
    r.connection.peerAddress =
      (if cachedFamily = SaFamily.afInet then
        connection.happyEyeballsState.v4PeerAddress
       else connection.happyEyeballsState.v6PeerAddress) ∧
    r.connection.originalPeerAddress =
      (if cachedFamily = SaFamily.afInet then
        connection.happyEyeballsState.v4PeerAddress
       else connection.happyEyeballsState.v6PeerAddress) ∧
    r.connection.happyEyeballsState.secondPeerAddress =
      (if cachedFamily = SaFamily.afInet then
        connection.happyEyeballsState.v6PeerAddress
       else connection.happyEyeballsState.v4PeerAddress) ∧
    r.scheduledDelay = some connAttempDelay ∧
    (startHappyEyeballs connection cachedFamily connAttempDelay timer
        SetUpSocketOutcome.success).timerArmed = some connAttempDelay := by
  subst hr
  by_cases hc : cachedFamily = SaFamily.afInet <;>
    cases hsock : connection.happyEyeballsState.secondSocket <;>
      cases outcome <;>
        simp [startHappyEyeballs, happyEyeballsSetUpSocket, h4, h6, hc, hsock]

/-- C2 witness: both families registered with a v4 cache hint and a 150 ms
delay. -/
theorem c2_witness :
    (startHappyEyeballs bothFamiliesConnection SaFamily.afInet 150 none
        SetUpSocketOutcome.success).connection.peerAddress =
      (if SaFamily.afInet = SaFamily.afInet then
        bothFamiliesConnection.happyEyeballsState.v4PeerAddress
       else bothFamiliesConnection.happyEyeballsState.v6PeerAddress) ∧
    (startHappyEyeballs bothFamiliesConnection SaFamily.afInet 150 none
        SetUpSocketOutcome.success).connection.originalPeerAddress =
      (if SaFamily.afInet = SaFamily.afInet then
        bothFamiliesConnection.happyEyeballsState.v4PeerAddress
       else bothFamiliesConnection.happyEyeballsState.v6PeerAddress) ∧
    (startHappyEyeballs bothFamiliesConnection SaFamily.afInet 150 none
        SetUpSocketOutcome.success).connection.happyEyeballsState.secondPeerAddress =
      (if SaFamily.afInet = SaFamily.afInet then
        bothFamiliesConnection.happyEyeballsState.v6PeerAddress
       else bothFamiliesConnection.happyEyeballsState.v4PeerAddress) ∧
    (startHappyEyeballs bothFamiliesConnection SaFamily.afInet 150 none
        SetUpSocketOutcome.success).scheduledDelay = some 150 ∧
    (startHappyEyeballs bothFamiliesConnection SaFamily.afInet 150 none
        SetUpSocketOutcome.success).timerArmed = some 150 :=
  c2_start_selects_primary_by_cached_family bothFamiliesConnection
    SaFamily.afInet 150 none SetUpSocketOutcome.success _ rfl (by decide) (by decide)

/-- C5: with exactly one family registered, `startHappyEyeballs` assigns
that address to `peerAddress` and `originalPeerAddress` and marks the race
finished immediately; the primary write flag stays at its initial `true`
(the default of `shouldWriteToFirstSocket` is modelled from the spec, since
`StateData.h` is not among the sources, and this path never writes it). -/
theorem c5_start_single_family (connection : QuicConnectionStateBase)
    (cachedFamily : SaFamily) (connAttempDelay : Nat) (timer : Option Nat)
    (outcome : SetUpSocketOutcome) (r : StartHappyEyeballsResult)
    (hr : startHappyEyeballs connection cachedFamily connAttempDelay timer
        outcome = r)
    (hone : connection.happyEyeballsState.v4PeerAddress.isInitialized ≠
      connection.happyEyeballsState.v6PeerAddress.isInitialized)
    (hflag : connection.happyEyeballsState.shouldWriteToFirstSocket = true) :
    r.connection.happyEyeballsState.finished = true ∧
    r.connection.happyEyeballsState.shouldWriteToFirstSocket = true ∧
    r.connection.peerAddress =
      (if connection.happyEyeballsState.v6PeerAddress.isInitialized then
        connection.happyEyeballsState.v6PeerAddress
       else connection.happyEyeballsState.v4PeerAddress) ∧
    r.connection.originalPeerAddress =
      (if connection.happyEyeballsState.v6PeerAddress.isInitialized then
        connection.happyEyeballsState.v6PeerAddress
       else connection.happyEyeballsState.v4PeerAddress) := by
  subst hr
  cases hv6 : connection.happyEyeballsState.v6PeerAddress.isInitialized with
  | false =>
    cases hv4 : connection.happyEyeballsState.v4PeerAddress.isInitialized with
    | false => rw [hv4, hv6] at hone; exact absurd rfl hone
    | true => simp [startHappyEyeballs, hv4, hv6, hflag]
  | true =>
    cases hv4 : connection.happyEyeballsState.v4PeerAddress.isInitialized with
    | true => rw [hv4, hv6] at hone; exact absurd rfl hone
    | false => simp [startHappyEyeballs, hv4, hv6, hflag]

/-- C5 witness: a v6-only connection is started and finishes immediately
with the v6 address as peer address. -/
theorem c5_witness :
    (startHappyEyeballs v6OnlyConnection SaFamily.afUnspec 150 none
        SetUpSocketOutcome.success).connection.happyEyeballsState.finished = true ∧
    (startHappyEyeballs v6OnlyConnection SaFamily.afUnspec 150 none
        SetUpSocketOutcome.success).connection.happyEyeballsState.shouldWriteToFirstSocket = true ∧
    (startHappyEyeballs v6OnlyConnection SaFamily.afUnspec 150 none
        SetUpSocketOutcome.success).connection.peerAddress =
      (if v6OnlyConnection.happyEyeballsState.v6PeerAddress.isInitialized then
        v6OnlyConnection.happyEyeballsState.v6PeerAddress
       else v6OnlyConnection.happyEyeballsState.v4PeerAddress) ∧
    (startHappyEyeballs v6OnlyConnection SaFamily.afUnspec 150 none
        SetUpSocketOutcome.success).connection.originalPeerAddress =
      (if v6OnlyConnection.happyEyeballsState.v6PeerAddress.isInitialized then
        v6OnlyConnection.happyEyeballsState.v6PeerAddress
       else v6OnlyConnection.happyEyeballsState.v4PeerAddress) :=
  c5_start_single_family v6OnlyConnection SaFamily.afUnspec 150 none
    SetUpSocketOutcome.success _ rfl (by decide) (by decide)

/-- C6: when both families are registered and setting up the second socket
throws — whether at `bind` or at any later step of the setup —
`startHappyEyeballs` cancels the delay timer, marks the race finished,
surfaces no error (the run still produces a result state), and leaves the
already assigned primary peer address in place. -/
theorem c6_second_socket_bind_failure (connection : QuicConnectionStateBase)
    (cachedFamily : SaFamily) (connAttempDelay : Nat) (timer : Option Nat)
    (outcome : SetUpSocketOutcome) (s : UDPSocket)
    (r : StartHappyEyeballsResult)
    (hr : startHappyEyeballs connection cachedFamily connAttempDelay timer
        outcome = r)
    (hout : outcome ≠ SetUpSocketOutcome.success)
    (h6 : connection.happyEyeballsState.v6PeerAddress.isInitialized = true)
    (h4 : connection.happyEyeballsState.v4PeerAddress.isInitialized = true)
    (hsock : connection.happyEyeballsState.secondSocket = some s) :
    r.timerArmed = none ∧
    r.connection.happyEyeballsState.finished = true ∧
    r.connection.peerAddress =
      (if cachedFamily = SaFamily.afInet then
        connection.happyEyeballsState.v4PeerAddress
       else connection.happyEyeballsState.v6PeerAddress) ∧
    r.connection.originalPeerAddress =
      (if cachedFamily = SaFamily.afInet then
        connection.happyEyeballsState.v4PeerAddress
       else connection.happyEyeballsState.v6PeerAddress) := by
  subst hr
  cases outcome with
  | success => exact absurd rfl hout
  | bindThrows =>
    by_cases hc : cachedFamily = SaFamily.afInet <;>
      simp [startHappyEyeballs, happyEyeballsSetUpSocket, h4, h6, hc, hsock]
  | postBindThrows =>
    by_cases hc : cachedFamily = SaFamily.afInet <;>
      simp [startHappyEyeballs, happyEyeballsSetUpSocket, h4, h6, hc, hsock]

/-- C6 witness: both families registered, the second socket's bind throws. -/
theorem c6_witness :
    (startHappyEyeballs bothFamiliesConnection SaFamily.afUnspec 150 none
        SetUpSocketOutcome.bindThrows).timerArmed = none ∧
    (startHappyEyeballs bothFamiliesConnection SaFamily.afUnspec 150 none
        SetUpSocketOutcome.bindThrows).connection.happyEyeballsState.finished =
      true ∧
    (startHappyEyeballs bothFamiliesConnection SaFamily.afUnspec 150 none
        SetUpSocketOutcome.bindThrows).connection.peerAddress =
      (if SaFamily.afUnspec = SaFamily.afInet then
        bothFamiliesConnection.happyEyeballsState.v4PeerAddress
       else bothFamiliesConnection.happyEyeballsState.v6PeerAddress) ∧
    (startHappyEyeballs bothFamiliesConnection SaFamily.afUnspec 150 none
        SetUpSocketOutcome.bindThrows).connection.originalPeerAddress =
      (if SaFamily.afUnspec = SaFamily.afInet then
        bothFamiliesConnection.happyEyeballsState.v4PeerAddress
       else bothFamiliesConnection.happyEyeballsState.v6PeerAddress) :=
  c6_second_socket_bind_failure bothFamiliesConnection SaFamily.afUnspec 150
    none SetUpSocketOutcome.bindThrows sockFresh _ rfl (by decide) (by decide)
    (by decide) (by decide)

/-- C4 counterexample: the claim fails on the code.  With both families
registered and a fresh second socket, when the secondary setup throws after
a successful bind (`dontFragment`, or `connect` with `connectUDP` set —
e.g. a blackholed v6 route — or `setErrMessageCallback`), the catch in
`startHappyEyeballs` sets `finished = true` but leaves the bound, unclosed
secondary in `happyEyeballsState.secondSocket`; next to an open primary
socket that is two open sockets after `finished`. -/
theorem c4_counterexample :
    (startHappyEyeballs bothFamiliesConnection SaFamily.afUnspec 150 none
        SetUpSocketOutcome.postBindThrows).connection.happyEyeballsState.finished =
      true ∧
    openSocketCount (some sockA)
      (startHappyEyeballs bothFamiliesConnection SaFamily.afUnspec 150 none
        SetUpSocketOutcome.postBindThrows).connection.happyEyeballsState =
      2 := by
  decide

/-- C4 (amended): each code path that sets `finished` leaves at most one
open socket, except that on a secondary setup failure this only holds when
the throw happened at `bind` (the socket never became bound); a throw after
a successful bind leaves the bound secondary open alongside the primary.
Single-family start (no second socket was added) and a bind-level failure
keep the open-handle count at one at most; the first received datagram
resets the losing handle; and once finished,
`happyEyeballsOnDataReceived` preserves the count. -/
theorem c4_at_most_one_open_socket_after_finished
    (connA connB connC connD : QuicConnectionStateBase)
    (cachedFamily cachedFamilyB : SaFamily) (connAttempDelay : Nat)
    (timer : Option Nat) (outcome : SetUpSocketOutcome)
    (mainA mainB socketC socketD : Option UDPSocket) (sB : UDPSocket)
    (timerC timerD : Option Nat) (addrC addrD : SocketAddress)
    (honeA : connA.happyEyeballsState.v4PeerAddress.isInitialized ≠
      connA.happyEyeballsState.v6PeerAddress.isInitialized)
    (hsockA : connA.happyEyeballsState.secondSocket = none)
    (h6B : connB.happyEyeballsState.v6PeerAddress.isInitialized = true)
    (h4B : connB.happyEyeballsState.v4PeerAddress.isInitialized = true)
    (hsockB : connB.happyEyeballsState.secondSocket = some sB)
    (hboundB : sB.bound = false)
    (hfinC : connC.happyEyeballsState.finished = false)
    (hfinD : connD.happyEyeballsState.finished = true) :
    ((startHappyEyeballs connA cachedFamily connAttempDelay timer
        outcome).connection.happyEyeballsState.finished = true ∧
      openSocketCount mainA
        (startHappyEyeballs connA cachedFamily connAttempDelay timer
          outcome).connection.happyEyeballsState ≤ 1) ∧
    ((startHappyEyeballs connB cachedFamilyB connAttempDelay timer
        SetUpSocketOutcome.bindThrows).connection.happyEyeballsState.finished =
      true ∧
      openSocketCount mainB
        (startHappyEyeballs connB cachedFamilyB connAttempDelay timer
          SetUpSocketOutcome.bindThrows).connection.happyEyeballsState ≤ 1) ∧
    ((happyEyeballsOnDataReceived connC timerC socketC
        addrC).connection.happyEyeballsState.finished = true ∧
      openSocketCount (happyEyeballsOnDataReceived connC timerC socketC
          addrC).socket
        (happyEyeballsOnDataReceived connC timerC socketC
          addrC).connection.happyEyeballsState ≤ 1) ∧
    openSocketCount (happyEyeballsOnDataReceived connD timerD socketD
        addrD).socket
      (happyEyeballsOnDataReceived connD timerD socketD
        addrD).connection.happyEyeballsState =
      openSocketCount socketD connD.happyEyeballsState := by
  refine ⟨⟨?_, ?_⟩, ⟨?_, ?_⟩, ⟨?_, ?_⟩, ?_⟩
  · cases hv6 : connA.happyEyeballsState.v6PeerAddress.isInitialized with
    | false =>
      cases hv4 : connA.happyEyeballsState.v4PeerAddress.isInitialized with
      | false => rw [hv4, hv6] at honeA; exact absurd rfl honeA
      | true => simp [startHappyEyeballs, hv4, hv6]
    | true =>
      cases hv4 : connA.happyEyeballsState.v4PeerAddress.isInitialized with
      | true => rw [hv4, hv6] at honeA; exact absurd rfl honeA
      | false => simp [startHappyEyeballs, hv4, hv6]
  · refine openSocketCount_le_one_of_second_none mainA _ ?_
    cases hv6 : connA.happyEyeballsState.v6PeerAddress.isInitialized with
    | false =>
      cases hv4 : connA.happyEyeballsState.v4PeerAddress.isInitialized with
      | false => rw [hv4, hv6] at honeA; exact absurd rfl honeA
      | true => simp [startHappyEyeballs, hv4, hv6, hsockA]
    | true =>
      cases hv4 : connA.happyEyeballsState.v4PeerAddress.isInitialized with
      | true => rw [hv4, hv6] at honeA; exact absurd rfl honeA
      | false => simp [startHappyEyeballs, hv4, hv6, hsockA]
  · by_cases hc : cachedFamilyB = SaFamily.afInet <;>
      simp [startHappyEyeballs, happyEyeballsSetUpSocket, h4B, h6B, hc, hsockB]
  · refine openSocketCount_le_one_of_second_not_open mainB _ sB ?_ ?_
    · by_cases hc : cachedFamilyB = SaFamily.afInet <;>
        simp [startHappyEyeballs, happyEyeballsSetUpSocket, h4B, h6B, hc, hsockB]
    · simp [UDPSocket.isOpen, hboundB]
  · exact onDataReceived_sets_finished connC timerC socketC addrC hfinC
  · exact openSocketCount_le_one_of_second_none _ _
      (onDataReceived_second_none connC timerC socketC addrC hfinC)
  · rw [onDataReceived_finished_id connD timerD socketD addrD hfinD]

/-- C4 witness: the finishing paths at concrete states (v6-only start,
bind-level failure with both families, first datagram on the race
connection) and preservation on an already finished connection. -/
theorem c4_witness :
    ((startHappyEyeballs v6OnlyConnection SaFamily.afUnspec 150 none
        SetUpSocketOutcome.success).connection.happyEyeballsState.finished =
      true ∧
      openSocketCount (some sockA)
        (startHappyEyeballs v6OnlyConnection SaFamily.afUnspec 150 none
          SetUpSocketOutcome.success).connection.happyEyeballsState ≤ 1) ∧
    ((startHappyEyeballs bothFamiliesConnection SaFamily.afUnspec 150 none
        SetUpSocketOutcome.bindThrows).connection.happyEyeballsState.finished =
      true ∧
      openSocketCount (some sockA)
        (startHappyEyeballs bothFamiliesConnection SaFamily.afUnspec 150 none
          SetUpSocketOutcome.bindThrows).connection.happyEyeballsState ≤ 1) ∧
    ((happyEyeballsOnDataReceived raceConnection (some 150) (some sockA)
        addrV4).connection.happyEyeballsState.finished = true ∧
      openSocketCount (happyEyeballsOnDataReceived raceConnection (some 150)
          (some sockA) addrV4).socket
        (happyEyeballsOnDataReceived raceConnection (some 150) (some sockA)
          addrV4).connection.happyEyeballsState ≤ 1) ∧
    openSocketCount (happyEyeballsOnDataReceived finishedConnection (some 150)
        (some sockA) addrV4).socket
      (happyEyeballsOnDataReceived finishedConnection (some 150) (some sockA)
        addrV4).connection.happyEyeballsState =
      openSocketCount (some sockA) finishedConnection.happyEyeballsState :=
  c4_at_most_one_open_socket_after_finished v6OnlyConnection
    bothFamiliesConnection raceConnection finishedConnection SaFamily.afUnspec
    SaFamily.afUnspec 150 none SetUpSocketOutcome.success (some sockA)
    (some sockA) (some sockA) (some sockA) sockFresh (some 150) (some 150)
    addrV4 addrV4 (by decide) (by decide) (by decide) (by decide) (by decide)
    (by decide) (by decide) (by decide)

/-- C7 counterexample: the claim says that when `finished` is already true
the operation leaves the state unchanged, but the source opens with
`CHECK(!finished)`, which aborts the process; on a finished state the model
therefore yields no result state at all rather than the unchanged state. -/
theorem c7_counterexample :
    finishedHappyEyeballsState.finished = true ∧
    happyEyeballsStartSecondSocket finishedHappyEyeballsState = none ∧
    happyEyeballsStartSecondSocket finishedHappyEyeballsState ≠
      some finishedHappyEyeballsState := by decide

/-- C7 (amended): on delay-timer expiry with the race not finished,
`happyEyeballsStartSecondSocket` makes the second socket writable and
changes nothing else; when the race is already finished the `CHECK`
assertion fails and the operation does not return. -/
theorem c7_start_second_socket (hes hesFin : HappyEyeballsState)
    (hnot : hes.finished = false) (hfin : hesFin.finished = true) :
    happyEyeballsStartSecondSocket hes =
      some { hes with shouldWriteToSecondSocket := true } ∧
    happyEyeballsStartSecondSocket hesFin = none := by
  constructor
  · simp [happyEyeballsStartSecondSocket, hnot]
  · simp [happyEyeballsStartSecondSocket, hfin]

/-- C7 witness: the initial state becomes secondary-writable; the finished
state trips the assertion. -/
theorem c7_witness :
    happyEyeballsStartSecondSocket initialHappyEyeballsState =
      some { initialHappyEyeballsState with shouldWriteToSecondSocket := true } ∧
    happyEyeballsStartSecondSocket finishedHappyEyeballsState = none :=
  c7_start_second_socket initialHappyEyeballsState finishedHappyEyeballsState
    (by decide) (by decide)

/-- C8 counterexample: registering a second v4 address over an existing one
does not fail with `ConfigError`; the source only has a debug-build
`DCHECK` and the assignment overwrites the previously registered address. -/
theorem c8_counterexample :
    v4RegisteredConnection.happyEyeballsState.v4PeerAddress = addrV4 ∧
    addrV4b.family = SaFamily.afInet ∧
    addrV4b ≠ addrV4 ∧
    (happyEyeballsAddPeerAddress v4RegisteredConnection
        addrV4b).happyEyeballsState.v4PeerAddress = addrV4b := by decide

/-- C8 (amended): `happyEyeballsAddPeerAddress` stores a v4 address in the
v4 slot and any other address in the v6 slot; a duplicate registration of
an already-registered family overwrites the stored address (guarded only by
a debug assertion) instead of failing with `ConfigError`. -/
theorem c8_add_peer_address_routes_by_family
    (connection : QuicConnectionStateBase) (peerAddress : SocketAddress) :
    happyEyeballsAddPeerAddress connection peerAddress =
      (if peerAddress.family = SaFamily.afInet then
        { connection with happyEyeballsState :=
            { connection.happyEyeballsState with v4PeerAddress := peerAddress } }
       else
        { connection with happyEyeballsState :=
            { connection.happyEyeballsState with
              v6PeerAddress := peerAddress } }) := by
  by_cases h : peerAddress.family = SaFamily.afInet <;>
    simp [happyEyeballsAddPeerAddress, h]

/-- C10: once the race is finished, `happyEyeballsOnDataReceived` is the
identity on the connection, timer and socket; hence starting from an
unfinished state, a second (late or duplicate) datagram notification with
any peer address leaves the outcome of the first unchanged. -/
theorem c10_late_datagrams_absorbed
    (connFin connRace : QuicConnectionStateBase) (timer1 timer2 : Option Nat)
    (socket1 socket2 : Option UDPSocket) (a1 a2 a3 : SocketAddress)
    (hfin : connFin.happyEyeballsState.finished = true)
    (hrace : connRace.happyEyeballsState.finished = false) :
    happyEyeballsOnDataReceived connFin timer1 socket1 a1 =
      { connection := connFin, timerArmed := timer1, socket := socket1
        closedSocket := none } ∧
    (happyEyeballsOnDataReceived
        (happyEyeballsOnDataReceived connRace timer2 socket2 a2).connection
        (happyEyeballsOnDataReceived connRace timer2 socket2 a2).timerArmed
        (happyEyeballsOnDataReceived connRace timer2 socket2 a2).socket
        a3).connection =
      (happyEyeballsOnDataReceived connRace timer2 socket2 a2).connection ∧
    (happyEyeballsOnDataReceived
        (happyEyeballsOnDataReceived connRace timer2 socket2 a2).connection
        (happyEyeballsOnDataReceived connRace timer2 socket2 a2).timerArmed
        (happyEyeballsOnDataReceived connRace timer2 socket2 a2).socket
        a3).timerArmed =
      (happyEyeballsOnDataReceived connRace timer2 socket2 a2).timerArmed ∧
    (happyEyeballsOnDataReceived
        (happyEyeballsOnDataReceived connRace timer2 socket2 a2).connection
        (happyEyeballsOnDataReceived connRace timer2 socket2 a2).timerArmed
        (happyEyeballsOnDataReceived connRace timer2 socket2 a2).socket
        a3).socket =
      (happyEyeballsOnDataReceived connRace timer2 socket2 a2).socket := by
  have h2 := onDataReceived_sets_finished connRace timer2 socket2 a2 hrace
  refine ⟨onDataReceived_finished_id connFin timer1 socket1 a1 hfin, ?_, ?_, ?_⟩ <;>
    rw [onDataReceived_finished_id _ _ _ _ h2]

/-- C10 witness: a datagram arriving at an already finished connection is
absorbed, and a duplicate notification after the race connection's first
datagram changes nothing. -/
theorem c10_witness :
    happyEyeballsOnDataReceived finishedConnection (some 150) (some sockA)
        addrV4 =
      { connection := finishedConnection, timerArmed := some 150
        socket := some sockA, closedSocket := none } ∧
    (happyEyeballsOnDataReceived
        (happyEyeballsOnDataReceived raceConnection (some 150) (some sockA)
          addrV4).connection
        (happyEyeballsOnDataReceived raceConnection (some 150) (some sockA)
          addrV4).timerArmed
        (happyEyeballsOnDataReceived raceConnection (some 150) (some sockA)
          addrV4).socket
        addrV6).connection =
      (happyEyeballsOnDataReceived raceConnection (some 150) (some sockA)
        addrV4).connection ∧
    (happyEyeballsOnDataReceived
        (happyEyeballsOnDataReceived raceConnection (some 150) (some sockA)
          addrV4).connection
        (happyEyeballsOnDataReceived raceConnection (some 150) (some sockA)
          addrV4).timerArmed
        (happyEyeballsOnDataReceived raceConnection (some 150) (some sockA)
          addrV4).socket
        addrV6).timerArmed =
      (happyEyeballsOnDataReceived raceConnection (some 150) (some sockA)
        addrV4).timerArmed ∧
    (happyEyeballsOnDataReceived
        (happyEyeballsOnDataReceived raceConnection (some 150) (some sockA)
          addrV4).connection
        (happyEyeballsOnDataReceived raceConnection (some 150) (some sockA)
          addrV4).timerArmed
        (happyEyeballsOnDataReceived raceConnection (some 150) (some sockA)
          addrV4).socket
        addrV6).socket =
      (happyEyeballsOnDataReceived raceConnection (some 150) (some sockA)
        addrV4).socket :=
  c10_late_datagrams_absorbed finishedConnection raceConnection (some 150)
    (some 150) (some sockA) (some sockA) addrV4 addrV4 addrV6 (by decide)
    (by decide)

/-- C3 counterexample: the claim's "at most once over the whole connection
lifetime, regardless of how many times the handshake has installed into
that slot" fails: after a take has emptied the slot a further install
repopulates it, and the next take returns a key again, so the sequence
install-take-install-take hands out a key twice. -/
theorem c3_counterexample :
    keySlotOutputs none
        [KeySchedulerOp.install 1, KeySchedulerOp.take,
          KeySchedulerOp.install 2, KeySchedulerOp.take] =
      [some 1, some 2] ∧
    takeHits none
        [KeySchedulerOp.install 1, KeySchedulerOp.take,
          KeySchedulerOp.install 2, KeySchedulerOp.take] = 2 := by
  decide

/-- C3 (amended): for a key-scheduler slot that starts empty, the
edge-triggered take returns a key at most once provided the handshake
installs into the slot at most once over the connection lifetime — which
the monotone, non-rotating key schedule guarantees; after the first
successful take every further take returns empty until a new install. -/
theorem c3_take_at_most_once_per_install (ops : List KeySchedulerOp)
    (h : installCount ops ≤ 1) : takeHits none ops ≤ 1 := by
  have hle := takeHits_le ops none
  simp only [Option.isSome_none, Bool.false_eq_true, if_false] at hle
  omega

/-- C3 witness: one install followed by two takes yields a key only once. -/
theorem c3_witness :
    installCount
        [KeySchedulerOp.install 5, KeySchedulerOp.take, KeySchedulerOp.take] ≤
      1 ∧
    takeHits none
        [KeySchedulerOp.install 5, KeySchedulerOp.take, KeySchedulerOp.take] ≤
      1 :=
  ⟨by decide, c3_take_at_most_once_per_install _ (by decide)⟩

/-- C9: `getZeroRttRejected` is an edge-triggered tri-state observer: if
zero-rtt was never attempted every call returns none; the handshake reports
success at most once, and then at most one call returns a value; the first
call after a success with zero-rtt attempted does return the
accepted-or-rejected result; and the result is cleared on read, so a call
right after a successful read returns none. -/
theorem c9_zero_rtt_rejected_tri_state (ops1 ops2 : List ZeroRttOp)
    (s t : ZeroRttState) (b : Bool)
    (h1 : ZeroRttOp.attempt ∉ ops1)
    (h2 : successCount ops2 ≤ 1)
    (hs : s.earlyDataAttempted = true) :
    (zeroRttOutputs initialZeroRttState ops1).all (fun o => o.isNone) = true ∧
    (zeroRttOutputs initialZeroRttState ops2).countP (fun o => o.isSome) ≤ 1 ∧
    (getZeroRttRejected (reportHandshakeSuccess b s)).1 = some (!b) ∧
    (getZeroRttRejected (getZeroRttRejected t).2).1 = none := by
  refine ⟨zeroRttOutputs_all_none ops1 initialZeroRttState h1 rfl rfl, ?_, ?_, rfl⟩
  · have hle := zeroRttHits_le ops2 initialZeroRttState
    have hz : initialZeroRttState.zeroRttRejected = none := rfl
    rw [hz] at hle
    simp only [Option.isSome_none, Bool.false_eq_true, if_false] at hle
    omega
  · simp [getZeroRttRejected, reportHandshakeSuccess, hs]

/-- C9 witness: with no zero-rtt attempt a read yields none; a full attempt,
success and double read yields the rejection result exactly once; the first
read after an attempted handshake success returns the result. -/
theorem c9_witness :
    (zeroRttOutputs initialZeroRttState [ZeroRttOp.get]).all
        (fun o => o.isNone) = true ∧
    (zeroRttOutputs initialZeroRttState
          [ZeroRttOp.attempt, ZeroRttOp.success true, ZeroRttOp.get,
            ZeroRttOp.get]).countP (fun o => o.isSome) ≤ 1 ∧
    (getZeroRttRejected (reportHandshakeSuccess false
        { earlyDataAttempted := true, zeroRttRejected := none })).1 =
      some (!false) ∧
    (getZeroRttRejected (getZeroRttRejected
        { earlyDataAttempted := true, zeroRttRejected := some true }).2).1 =
      none :=
  c9_zero_rtt_rejected_tri_state [ZeroRttOp.get]
    [ZeroRttOp.attempt, ZeroRttOp.success true, ZeroRttOp.get, ZeroRttOp.get]
    { earlyDataAttempted := true, zeroRttRejected := none }
    { earlyDataAttempted := true, zeroRttRejected := some true } false
    (by decide) (by decide) rfl

end Quic
